import Mathlib

/-!
Verification development for the pockethero battle and monster-progression
engine.  The definitions below are a shallow embedding of the JavaScript
sources `src/js/systems/BattleSystem.js` and the `MonsterSystem` class
(`src/unnamed/part_007`), together with the pieces of `src/js/constants.js`
and `src/js/utils/DataManager.js` they rely on.

Modelling conventions:
* JavaScript numbers are modelled by `ℕ`/`ℤ` where the source only ever
  holds integers, and by `ℚ` where the source performs fractional
  arithmetic (`Math.floor` becomes `Int.floor` / truncating `Nat` division).
* `null`/`undefined` fields are modelled by `Option`.
* `Math.random()` draws are modelled by an explicit stream (`List ℚ`) that
  is threaded through the battle functions; each `Math.random()` call pops
  one draw.  The source's randomness is ambient, so theorems quantify over
  the stream.
* Mutation of monster instances is modelled by returning updated copies;
  the battle state holds its teams as lists and designates the active
  monsters by index, mirroring the reference aliasing of the source.
* A result of `none` in battle functions marks a source path that would
  throw a JavaScript `TypeError`/`ReferenceError` (dereferencing a missing
  monster, or consulting the ill-formed type-chart cell, see `typeChart`).
-/

namespace Pockethero

/-- `GAME_CONFIG.MAX_MONSTER_LEVEL` from `src/js/constants.js` line 28. -/
def MAX_MONSTER_LEVEL : ℕ := 100

/-- A six-field stat block.  Used for base stats, IVs, EVs and derived
stats (`baseStats`, `ivs`, `evs`, `stats` in the source). -/
structure Stats where
  hp : ℕ
  attack : ℕ
  defense : ℕ
  specialAttack : ℕ
  specialDefense : ℕ
  speed : ℕ
deriving Repr, DecidableEq

/-- The `evolution` record of a species definition: `{ level, evolvesTo }`.
Both fields may be absent in the data, hence `Option`. -/
structure EvolutionRule where
  level : Option ℕ
  evolvesTo : Option String
deriving Repr, DecidableEq

/-- A species definition as consumed by `MonsterSystem`
(`dataManager.get('monsters', id)`). `abilityLevels` keeps the object's
insertion order, which is what `Object.entries` iterates in the source
(the keys are non-numeric strings). -/
structure SpeciesData where
  id : String
  name : String
  type : String
  baseStats : Stats
  abilityLevels : List (String × ℕ)
  evolution : Option EvolutionRule
  catchRate : ℕ
  expYield : ℕ
  growthRate : String
deriving Repr, DecidableEq

/-- A secondary effect of an ability (`ability.effects[i]`). -/
structure AbilityEffect where
  type : String
  target : String
  chance : Option ℚ
  stat : Option String
  stages : Option ℤ
  status : Option String
  percentage : Option ℚ
deriving Repr, DecidableEq

/-- An ability definition (`dataManager.get('abilities', id)`). `power`
is `null` for status moves, hence `Option`. -/
structure AbilityData where
  id : String
  name : String
  type : String
  category : String
  power : Option ℚ
  accuracy : ℚ
  effects : List AbilityEffect
deriving Repr, DecidableEq

/-- The `effect` record of an item definition. -/
structure ItemEffect where
  amount : Option ℕ
  catchRate : Option ℚ
deriving Repr, DecidableEq

/-- An item definition (`dataManager.get('items', id)`). -/
structure ItemData where
  id : String
  name : String
  type : String
  effect : ItemEffect
deriving Repr, DecidableEq

/-- A monster instance as created by `MonsterSystem.createMonster`.
`currentHp` is `ℤ` because the source never clamps it above and arithmetic
on it is plain JavaScript number arithmetic; `status` is `null` or a
status string. The visual `shape` descriptor is omitted (never read by the
embedded logic). -/
structure Monster where
  id : String
  name : String
  type : String
  level : ℕ
  experience : ℕ
  nextLevelExperience : ℕ
  baseStats : Stats
  stats : Stats
  currentHp : ℤ
  ivs : Stats
  evs : Stats
  abilities : List String
  status : Option String
  catchRate : ℕ
deriving Repr, DecidableEq

/-- The read-only data repository behind `dataManager.get`.  Lookup of an
absent id yields `null` (`this._cache[type][id] || null`). -/
structure GameDb where
  monsters : List (String × SpeciesData) := []
  abilities : List (String × AbilityData) := []
  items : List (String × ItemData) := []
deriving Repr

/-- `dataManager.get(type, id)`: association-list lookup, `none` for a
missing id. -/
def dbFind {α : Type} (table : List (String × α)) (id : String) : Option α :=
  (table.find? (fun p => p.1 = id)).map Prod.snd

/-- `MonsterSystem._calculateStats(baseStats, level, ivs, evs)`
(part_007 lines 139-151).  All quantities are integers, so the
`Math.floor` calls coincide with truncating natural division. -/
def calculateStats (baseStats : Stats) (level : ℕ) (ivs evs : Stats) : Stats where
  hp := (2 * baseStats.hp + ivs.hp + evs.hp / 4) * level / 100 + level + 10
  attack := (2 * baseStats.attack + ivs.attack + evs.attack / 4) * level / 100 + 5
  defense := (2 * baseStats.defense + ivs.defense + evs.defense / 4) * level / 100 + 5
  specialAttack :=
    (2 * baseStats.specialAttack + ivs.specialAttack + evs.specialAttack / 4) * level / 100 + 5
  specialDefense :=
    (2 * baseStats.specialDefense + ivs.specialDefense + evs.specialDefense / 4) * level / 100 + 5
  speed := (2 * baseStats.speed + ivs.speed + evs.speed / 4) * level / 100 + 5

/-- `MonsterSystem._getLevelExperience(level, growthRate)` (part_007 lines
188-216).  `Math.floor(0.8·l³)` = `4·l³/5` and `Math.floor(1.25·l³)` =
`5·l³/4` in truncating natural division; an unknown growth rate defaults
to the medium curve.  `level ≤ 0` is `level = 0` in `ℕ`. -/
def getLevelExperience (level : ℕ) (growthRate : String) : ℕ :=
  if level = 0 then 0
  else if growthRate = "fast" then 4 * level ^ 3 / 5
  else if growthRate = "medium" then level ^ 3
  else if growthRate = "slow" then 5 * level ^ 3 / 4
  else level ^ 3

/-- `MonsterSystem.getExperienceYield(monster)` (part_007 lines 223-232):
`floor(expYield · level / 7)`, `0` when the species record is missing. -/
def getExperienceYield (db : GameDb) (monster : Monster) : ℕ :=
  match dbFind db.monsters monster.id with
  | none => 0
  | some md => md.expYield * monster.level / 7

/-- Stable insertion step for `_getAbilitiesForLevel`'s
`abilities.sort((a, b) => levelA - levelB)`: an element is inserted after
every element of smaller-or-equal key, which reproduces a stable ascending
sort when folded over the list from the left. -/
def insertByLevel (md : SpeciesData) (a : String) : List String → List String
  | [] => [a]
  | b :: rest =>
    if (dbFind md.abilityLevels b).getD 0 ≤ (dbFind md.abilityLevels a).getD 0 then
      b :: insertByLevel md a rest
    else
      a :: b :: rest

/-- `MonsterSystem._getAbilitiesForLevel(monsterData, level)` (part_007
lines 160-179): abilities unlocked at or below `level`, sorted ascending
by unlock level (stably), truncated to the last four (`slice(-4)`). -/
def getAbilitiesForLevel (md : SpeciesData) (level : ℕ) : List String :=
  let unlocked := ((md.abilityLevels.filter (fun p => p.2 ≤ level)).map Prod.fst)
  let sorted := unlocked.foldl (fun acc a => insertByLevel md a acc) []
  sorted.drop (sorted.length - 4)

/-- All-zero EVs, `MonsterSystem._generateEVs()` (part_007 lines 119-128). -/
def generateEVs : Stats := ⟨0, 0, 0, 0, 0, 0⟩

/-- Options record for `createMonster` (`options.ivs`, `options.evs`,
`options.abilities`; absent fields fall back to generated values). -/
structure CreateOptions where
  ivs : Option Stats := none
  evs : Option Stats := none
  abilities : Option (List String) := none
deriving Repr

/-- `MonsterSystem.createMonster(monsterId, level, options)` (part_007
lines 48-96).  Returns `none` (the source returns `null` after
`console.error`) when the species id is not in the data.  `randomIvs`
stands for the six `Math.floor(Math.random()*32)` draws of
`_generateIVs`; `level || 1` maps level `0` to `1`. -/
def createMonster (db : GameDb) (monsterId : String) (level : ℕ)
    (options : CreateOptions) (randomIvs : Stats) : Option Monster :=
  match dbFind db.monsters monsterId with
  | none => none
  | some md =>
    let level := if level = 0 then 1 else level
    let ivs := options.ivs.getD randomIvs
    let evs := options.evs.getD generateEVs
    let stats := calculateStats md.baseStats level ivs evs
    let abilities := options.abilities.getD (getAbilitiesForLevel md level)
    some
      { id := md.id
        name := md.name
        type := md.type
        level := level
        experience := getLevelExperience level md.growthRate
        nextLevelExperience := getLevelExperience (level + 1) md.growthRate
        baseStats := md.baseStats
        stats := stats
        currentHp := (stats.hp : ℤ)
        ivs := ivs
        evs := evs
        abilities := abilities
        status := none
        catchRate := md.catchRate }

/-- Result record of `applyDamage` (part_007 lines 385-392). -/
structure DamageResult where
  damage : ℕ
  previousHp : ℤ
  currentHp : ℤ
  damagePercentage : ℤ
  fainted : Bool
deriving Repr, DecidableEq

/-- `MonsterSystem.applyDamage(monster, damage)` (part_007 lines 369-393).
`damage` is a natural number: every call site passes a floor of a
non-negative quantity (`damage > 0` guard in `_executeAbility`,
`Math.max(1, ...)` for status ticks). -/
def applyDamage (monster : Monster) (damage : ℕ) : Monster × DamageResult :=
  let previousHp := monster.currentHp
  let newHp : ℤ := max 0 (monster.currentHp - damage)
  let fainted : Bool := newHp = 0
  ({ monster with currentHp := newHp },
    { damage := damage
      previousHp := previousHp
      currentHp := newHp
      damagePercentage := (damage : ℤ) * 100 / (monster.stats.hp : ℤ)
      fainted := fainted })

/-- Result record of `healMonster` (part_007 lines 419-425). -/
structure HealResult where
  healAmount : ℤ
  previousHp : ℤ
  currentHp : ℤ
  healPercentage : ℤ
deriving Repr, DecidableEq

/-- `MonsterSystem.healMonster(monster, amount)` (part_007 lines 401-426).
`amount = none` models the omitted-argument full heal. -/
def healMonster (monster : Monster) (amount : Option ℕ) : Monster × HealResult :=
  let previousHp := monster.currentHp
  let newHp : ℤ :=
    match amount with
    | none => (monster.stats.hp : ℤ)
    | some amt => min (monster.stats.hp : ℤ) (monster.currentHp + amt)
  let healAmount := newHp - previousHp
  ({ monster with currentHp := newHp },
    { healAmount := healAmount
      previousHp := previousHp
      currentHp := newHp
      healPercentage := healAmount * 100 / (monster.stats.hp : ℤ) })

/-- Truthiness of a nullable string field (`null`/`undefined` and the
empty string are falsy in JavaScript). -/
def strTruthy : Option String → Bool
  | none => false
  | some s => s ≠ ""

/-- `MonsterSystem.applyStatus(monster, status)` (part_007 lines 434-444):
silently refused when a (truthy) status is already present.  The status
argument is `Option String` because `_executeAbility` forwards
`effect.status`, which the data may omit. -/
def applyStatus (monster : Monster) (status : Option String) : Monster × Bool :=
  if strTruthy monster.status then (monster, false)
  else ({ monster with status := status }, true)

/-- `MonsterSystem.clearStatus(monster)` (part_007 lines 451-455). -/
def clearStatus (monster : Monster) : Monster × Option String :=
  ({ monster with status := none }, monster.status)

/-- Result record of `awardExperience` (part_007 lines 299-305).  When the
species record is missing the source returns just `{ leveledUp: false }`;
the remaining fields are modelled by their defaults. -/
structure ExperienceResult where
  leveledUp : Bool := false
  levelsGained : ℕ := 0
  newAbilities : List String := []
  canEvolve : Bool := false
  evolutionId : Option String := none
deriving Repr, DecidableEq

/-- One pass of the `while` loop of `awardExperience` (part_007 lines
257-288), written with explicit fuel so that it evaluates structurally.
Each iteration raises `level` by one, so `MAX_MONSTER_LEVEL - level` fuel
(supplied by `awardExperience`) can never be exhausted before the loop
condition fails; when the fuel reaches `0` the level is already at least
`MAX_MONSTER_LEVEL` and the source loop would stop too. -/
def levelUpGo (md : SpeciesData) : ℕ → Monster → List String → Monster × List String × Bool
  | 0, monster, newAbilities => (monster, newAbilities, false)
  | fuel + 1, monster, newAbilities =>
    if monster.experience ≥ monster.nextLevelExperience ∧ monster.level < MAX_MONSTER_LEVEL then
      let newLevel := monster.level + 1
      let newStats := calculateStats monster.baseStats newLevel monster.ivs monster.evs
      let hpDifference : ℤ := (newStats.hp : ℤ) - (monster.stats.hp : ℤ)
      let monster' : Monster :=
        { monster with
          level := newLevel
          stats := newStats
          currentHp := monster.currentHp + hpDifference
          nextLevelExperience := getLevelExperience (newLevel + 1) md.growthRate }
      let gained := (md.abilityLevels.filter (fun p => p.2 = newLevel)).map Prod.fst
      let (m2, abs2, _) := levelUpGo md fuel monster' (newAbilities ++ gained)
      (m2, abs2, true)
    else
      (monster, newAbilities, false)

/-- `MonsterSystem.awardExperience(monster, amount)` (part_007 lines
240-306).  Returns the updated monster together with the result record.
The `levelUp` flag is true exactly when the loop body ran at least once. -/
def awardExperience (db : GameDb) (monster : Monster) (amount : ℕ) :
    Monster × ExperienceResult :=
  match dbFind db.monsters monster.id with
  | none => (monster, {})
  | some md =>
    let originalLevel := monster.level
    let m1 := { monster with experience := monster.experience + amount }
    let (m2, newAbilities, ranOnce) := levelUpGo md (MAX_MONSTER_LEVEL - m1.level) m1 []
    let levelUp := ranOnce
    let evolveInfo : Bool × Option String :=
      match md.evolution with
      | some ev =>
        match ev.level with
        | some evLevel =>
          -- `monsterData.evolution.level &&`: a zero threshold is falsy in JS
          if levelUp ∧ evLevel ≠ 0 ∧ m2.level ≥ evLevel then (true, ev.evolvesTo)
          else (false, none)
        | none => (false, none)
      | none => (false, none)
    (m2,
      { leveledUp := levelUp
        levelsGained := m2.level - originalLevel
        newAbilities := newAbilities
        canEvolve := evolveInfo.1
        evolutionId := evolveInfo.2 })

/-- `MonsterSystem.evolveMonster(monster)` (part_007 lines 313-352).  The
original instance is returned unchanged when the species record, its
`evolution` field, the `evolvesTo` id (empty strings are falsy in JS) or
the target species record is missing.  `randomIvs` feeds the nested
`createMonster` call (unused, since the IVs are passed explicitly). -/
def evolveMonster (db : GameDb) (monster : Monster) (randomIvs : Stats) : Monster :=
  match dbFind db.monsters monster.id with
  | none => monster
  | some md =>
    match md.evolution with
    | none => monster
    | some ev =>
      match ev.evolvesTo with
      | none => monster
      | some evolutionId =>
        if evolutionId = "" then monster
        else
          match dbFind db.monsters evolutionId with
          | none => monster
          | some _ =>
            match createMonster db evolutionId monster.level
                { ivs := some monster.ivs, evs := some monster.evs } randomIvs with
            | none => monster
            | some evolved =>
              let hpRatio : ℚ := (monster.currentHp : ℚ) / (monster.stats.hp : ℚ)
              { evolved with
                experience := monster.experience
                nextLevelExperience := monster.nextLevelExperience
                currentHp := ⌊(evolved.stats.hp : ℚ) * hpRatio⌋ }

/-- `MonsterSystem.calculateCatchProbability(monster, options)` (part_007
lines 465-482). -/
def calculateCatchProbability (monster : Monster) (ballBonus : ℚ) (statusBonus : Bool) : ℚ :=
  let statusFactor : ℚ := if statusBonus then 3 / 2 else 1
  let maxHp : ℚ := (monster.stats.hp : ℚ)
  let currentHp : ℚ := (monster.currentHp : ℚ)
  let p := ((3 * maxHp - 2 * currentHp) * monster.catchRate * ballBonus * statusFactor) /
    (3 * maxHp)
  min 255 (max 0 p) / 255

/-- `MonsterSystem.attemptCatch(monster, options)` (part_007 lines
492-503): a single Bernoulli trial, `Math.random() < probability`. -/
def attemptCatch (monster : Monster) (ballBonus : ℚ) (statusBonus : Bool) (draw : ℚ) : Bool :=
  draw < calculateCatchProbability monster ballBonus statusBonus

/-! ## Battle engine (`src/js/systems/BattleSystem.js`)

Result messages are paraphrased without apostrophes; no theorem below
depends on message text.  A return value of `none` marks a path on which
the JavaScript source would throw. -/

/-- A cell of the `_typeChart` literal (BattleSystem.js lines 55-131).
Every cell is a numeric literal except the (fighting, water) cell, whose
source text is the bare identifier `A`, which is bound nowhere in the
repository — evaluating the object literal in the constructor throws a
`ReferenceError`.  The embedding keeps that cell as `Cell.unbound "A"`. -/
inductive Cell where
  | num (q : ℚ)
  | unbound (name : String)
deriving Repr, DecidableEq

/-- The `_typeChart` literal, row by row, exactly as in the source. -/
def typeChart : List (String × List (String × Cell)) := [
  ("normal", [
    ("normal", Cell.num 1),
    ("fire", Cell.num 1),
    ("water", Cell.num 1),
    ("grass", Cell.num 1),
    ("electric", Cell.num 1),
    ("ice", Cell.num 1),
    ("fighting", Cell.num 1),
    ("poison", Cell.num 1),
    ("ground", Cell.num 1),
    ("flying", Cell.num 1),
    ("psychic", Cell.num 1),
    ("bug", Cell.num 1),
    ("rock", Cell.num (1/2)),
    ("ghost", Cell.num 0),
    ("dragon", Cell.num 1)]),
  ("fire", [
    ("normal", Cell.num 1),
    ("fire", Cell.num (1/2)),
    ("water", Cell.num (1/2)),
    ("grass", Cell.num 2),
    ("electric", Cell.num 1),
    ("ice", Cell.num 2),
    ("fighting", Cell.num 1),
    ("poison", Cell.num 1),
    ("ground", Cell.num 1),
    ("flying", Cell.num 1),
    ("psychic", Cell.num 1),
    ("bug", Cell.num 2),
    ("rock", Cell.num (1/2)),
    ("ghost", Cell.num 1),
    ("dragon", Cell.num (1/2))]),
  ("water", [
    ("normal", Cell.num 1),
    ("fire", Cell.num 2),
    ("water", Cell.num (1/2)),
    ("grass", Cell.num (1/2)),
    ("electric", Cell.num 1),
    ("ice", Cell.num 1),
    ("fighting", Cell.num 1),
    ("poison", Cell.num 1),
    ("ground", Cell.num 2),
    ("flying", Cell.num 1),
    ("psychic", Cell.num 1),
    ("bug", Cell.num 1),
    ("rock", Cell.num 2),
    ("ghost", Cell.num 1),
    ("dragon", Cell.num (1/2))]),
  ("grass", [
    ("normal", Cell.num 1),
    ("fire", Cell.num (1/2)),
    ("water", Cell.num 2),
    ("grass", Cell.num (1/2)),
    ("electric", Cell.num 1),
    ("ice", Cell.num 1),
    ("fighting", Cell.num 1),
    ("poison", Cell.num (1/2)),
    ("ground", Cell.num 2),
    ("flying", Cell.num (1/2)),
    ("psychic", Cell.num 1),
    ("bug", Cell.num (1/2)),
    ("rock", Cell.num 2),
    ("ghost", Cell.num 1),
    ("dragon", Cell.num (1/2))]),
  ("electric", [
    ("normal", Cell.num 1),
    ("fire", Cell.num 1),
    ("water", Cell.num 2),
    ("grass", Cell.num (1/2)),
    ("electric", Cell.num (1/2)),
    ("ice", Cell.num 1),
    ("fighting", Cell.num 1),
    ("poison", Cell.num 1),
    ("ground", Cell.num 0),
    ("flying", Cell.num 2),
    ("psychic", Cell.num 1),
    ("bug", Cell.num 1),
    ("rock", Cell.num 1),
    ("ghost", Cell.num 1),
    ("dragon", Cell.num (1/2))]),
  ("ice", [
    ("normal", Cell.num 1),
    ("fire", Cell.num (1/2)),
    ("water", Cell.num (1/2)),
    ("grass", Cell.num 2),
    ("electric", Cell.num 1),
    ("ice", Cell.num (1/2)),
    ("fighting", Cell.num 1),
    ("poison", Cell.num 1),
    ("ground", Cell.num 2),
    ("flying", Cell.num 2),
    ("psychic", Cell.num 1),
    ("bug", Cell.num 1),
    ("rock", Cell.num 1),
    ("ghost", Cell.num 1),
    ("dragon", Cell.num 2)]),
  ("fighting", [
    ("normal", Cell.num 2),
    ("fire", Cell.num 1),
    ("water", Cell.unbound "A"),
    ("grass", Cell.num 1),
    ("electric", Cell.num 1),
    ("ice", Cell.num 2),
    ("fighting", Cell.num 1),
    ("poison", Cell.num (1/2)),
    ("ground", Cell.num 1),
    ("flying", Cell.num (1/2)),
    ("psychic", Cell.num (1/2)),
    ("bug", Cell.num (1/2)),
    ("rock", Cell.num 2),
    ("ghost", Cell.num 0),
    ("dragon", Cell.num 1)]),
  ("poison", [
    ("normal", Cell.num 1),
    ("fire", Cell.num 1),
    ("water", Cell.num 1),
    ("grass", Cell.num 2),
    ("electric", Cell.num 1),
    ("ice", Cell.num 1),
    ("fighting", Cell.num 1),
    ("poison", Cell.num (1/2)),
    ("ground", Cell.num (1/2)),
    ("flying", Cell.num 1),
    ("psychic", Cell.num 1),
    ("bug", Cell.num 1),
    ("rock", Cell.num (1/2)),
    ("ghost", Cell.num (1/2)),
    ("dragon", Cell.num 1)]),
  ("ground", [
    ("normal", Cell.num 1),
    ("fire", Cell.num 2),
    ("water", Cell.num 1),
    ("grass", Cell.num (1/2)),
    ("electric", Cell.num 2),
    ("ice", Cell.num 1),
    ("fighting", Cell.num 1),
    ("poison", Cell.num 2),
    ("ground", Cell.num 1),
    ("flying", Cell.num 0),
    ("psychic", Cell.num 1),
    ("bug", Cell.num (1/2)),
    ("rock", Cell.num 2),
    ("ghost", Cell.num 1),
    ("dragon", Cell.num 1)]),
  ("flying", [
    ("normal", Cell.num 1),
    ("fire", Cell.num 1),
    ("water", Cell.num 1),
    ("grass", Cell.num 2),
    ("electric", Cell.num (1/2)),
    ("ice", Cell.num 1),
    ("fighting", Cell.num 2),
    ("poison", Cell.num 1),
    ("ground", Cell.num 1),
    ("flying", Cell.num 1),
    ("psychic", Cell.num 1),
    ("bug", Cell.num 2),
    ("rock", Cell.num (1/2)),
    ("ghost", Cell.num 1),
    ("dragon", Cell.num 1)]),
  ("psychic", [
    ("normal", Cell.num 1),
    ("fire", Cell.num 1),
    ("water", Cell.num 1),
    ("grass", Cell.num 1),
    ("electric", Cell.num 1),
    ("ice", Cell.num 1),
    ("fighting", Cell.num 2),
    ("poison", Cell.num 2),
    ("ground", Cell.num 1),
    ("flying", Cell.num 1),
    ("psychic", Cell.num (1/2)),
    ("bug", Cell.num 1),
    ("rock", Cell.num 1),
    ("ghost", Cell.num 1),
    ("dragon", Cell.num 1)]),
  ("bug", [
    ("normal", Cell.num 1),
    ("fire", Cell.num (1/2)),
    ("water", Cell.num 1),
    ("grass", Cell.num 2),
    ("electric", Cell.num 1),
    ("ice", Cell.num 1),
    ("fighting", Cell.num (1/2)),
    ("poison", Cell.num (1/2)),
    ("ground", Cell.num 1),
    ("flying", Cell.num (1/2)),
    ("psychic", Cell.num 2),
    ("bug", Cell.num 1),
    ("rock", Cell.num 1),
    ("ghost", Cell.num (1/2)),
    ("dragon", Cell.num 1)]),
  ("rock", [
    ("normal", Cell.num 1),
    ("fire", Cell.num 2),
    ("water", Cell.num 1),
    ("grass", Cell.num 1),
    ("electric", Cell.num 1),
    ("ice", Cell.num 2),
    ("fighting", Cell.num (1/2)),
    ("poison", Cell.num 1),
    ("ground", Cell.num (1/2)),
    ("flying", Cell.num 2),
    ("psychic", Cell.num 1),
    ("bug", Cell.num 2),
    ("rock", Cell.num 1),
    ("ghost", Cell.num 1),
    ("dragon", Cell.num 1)]),
  ("ghost", [
    ("normal", Cell.num 0),
    ("fire", Cell.num 1),
    ("water", Cell.num 1),
    ("grass", Cell.num 1),
    ("electric", Cell.num 1),
    ("ice", Cell.num 1),
    ("fighting", Cell.num 1),
    ("poison", Cell.num 1),
    ("ground", Cell.num 1),
    ("flying", Cell.num 1),
    ("psychic", Cell.num 2),
    ("bug", Cell.num 1),
    ("rock", Cell.num 1),
    ("ghost", Cell.num 2),
    ("dragon", Cell.num 1)]),
  ("dragon", [
    ("normal", Cell.num 1),
    ("fire", Cell.num 1),
    ("water", Cell.num 1),
    ("grass", Cell.num 1),
    ("electric", Cell.num 1),
    ("ice", Cell.num 1),
    ("fighting", Cell.num 1),
    ("poison", Cell.num 1),
    ("ground", Cell.num 1),
    ("flying", Cell.num 1),
    ("psychic", Cell.num 1),
    ("bug", Cell.num 1),
    ("rock", Cell.num 1),
    ("ghost", Cell.num 1),
    ("dragon", Cell.num 2)])]

/-- Row-then-column lookup in the chart. -/
def chartCell (attackType defenderType : String) : Option Cell :=
  match dbFind typeChart attackType with
  | none => none
  | some row => dbFind row defenderType

/-- `BattleSystem._calculateTypeEffectiveness(attackType, defenderType)`
(lines 854-862): the chart value when the row and cell are present,
otherwise the neutral default `1`.  The result is `none` exactly when the
consulted cell is the ill-formed `A` cell. -/
def calculateTypeEffectiveness (attackType defenderType : String) : Option ℚ :=
  match chartCell attackType defenderType with
  | some (Cell.num q) => some q
  | some (Cell.unbound _) => none
  | none => some 1

/-- A battle side. -/
inductive Side where
  | player
  | enemy
deriving Repr, DecidableEq

/-- The opposite side. -/
def Side.other : Side → Side
  | .player => .enemy
  | .enemy => .player

/-- The `battleResult` records produced by the engine (`{ winner }`,
`{ escaped: true }`, `{ needSwitch: true }`, catch results, evolution
data).  Absent JavaScript fields are modelled by the defaults. -/
structure BattleOutcome where
  winner : Option String := none
  caught : Bool := false
  escaped : Bool := false
  needSwitch : Bool := false
  canEvolve : Bool := false
  evolutionId : Option String := none
  monster : Option Monster := none
deriving Repr, DecidableEq

/-- An entry of the `effectResults` array of `_executeAbility`. -/
structure EffectResult where
  type : String
  target : String
  stat : Option String := none
  stages : Option ℤ := none
  status : Option String := none
  applied : Option Bool := none
  amount : Option ℤ := none
deriving Repr, DecidableEq

/-- The result record of a single action (`_executeAbility`, `_useItem`,
`_switchMonster`, `_attemptRun`, `_executeEnemyAction`).  Fields a given
source path does not set are modelled by the defaults (absent fields are
falsy in the `result.battleEnded` checks, hence `battleEnded : Bool`). -/
structure ActionResult where
  success : Bool := false
  message : String := ""
  hit : Option Bool := none
  user : Option String := none
  target : Option String := none
  ability : Option String := none
  damage : Option ℤ := none
  typeEffectiveness : Option ℚ := none
  effects : List EffectResult := []
  damageResult : Option DamageResult := none
  battleEnded : Bool := false
  battleResult : Option BattleOutcome := none
  escaped : Option Bool := none
  caught : Option Bool := none
  type : Option String := none
  amount : Option ℤ := none
  team : Option String := none
  previous : Option String := none
  current : Option String := none
deriving Repr, DecidableEq

/-- `executePlayerAction`'s combined result: the player action result plus
the `result.enemyAction` field attached afterwards (modelled separately
because the attachment would make `ActionResult` recursive). -/
structure TurnResult where
  result : ActionResult
  enemyAction : Option ActionResult := none
deriving Repr, DecidableEq

/-- The `_battleState` record (lines 38-48 / 165-176).  The active
monsters are team indices, mirroring the reference aliasing of the
source; `runAttempts` starts absent (`undefined`), modelled as `0`
because the source reads it as `(this._battleState.runAttempts || 0)`. -/
structure BattleState where
  active : Bool
  turn : ℕ
  playerTeam : List Monster
  enemyTeam : List Monster
  activePlayerIdx : Option ℕ
  activeEnemyIdx : Option ℕ
  battleType : String
  weather : Option String := none
  runAttempts : ℕ := 0
  result : Option BattleOutcome := none
deriving Repr, DecidableEq

/-- The team list of a side. -/
def BattleState.team (st : BattleState) : Side → List Monster
  | .player => st.playerTeam
  | .enemy => st.enemyTeam

/-- The active index of a side. -/
def BattleState.activeIdx (st : BattleState) : Side → Option ℕ
  | .player => st.activePlayerIdx
  | .enemy => st.activeEnemyIdx

/-- The active monster of a side (`activePlayerMonster` /
`activeEnemyMonster`), when present. -/
def getActive (st : BattleState) (s : Side) : Option Monster :=
  match st.activeIdx s with
  | none => none
  | some i => (st.team s).get? i

/-- Write an updated monster back into its team slot (the source mutates
the shared instance in place). -/
def setTeamAt (st : BattleState) (s : Side) (i : ℕ) (m : Monster) : BattleState :=
  match s with
  | .player => { st with playerTeam := st.playerTeam.set i m }
  | .enemy => { st with enemyTeam := st.enemyTeam.set i m }

/-- `BattleSystem.startBattle(options)` (lines 154-189), after the
single-monster enemy team has been normalised to a list. -/
def startBattle (playerTeam enemyTeam : List Monster) (battleType : String) : BattleState :=
  { active := true
    turn := 0
    playerTeam := playerTeam
    enemyTeam := enemyTeam
    activePlayerIdx := if 0 < playerTeam.length then some 0 else none
    activeEnemyIdx := if 0 < enemyTeam.length then some 0 else none
    battleType := battleType }

/-- `BattleSystem.endBattle(result)` (lines 196-214). -/
def endBattle (st : BattleState) (outcome : BattleOutcome) : BattleState :=
  { st with active := false, result := some outcome }

/-- `BattleSystem._getNextMonster(team)` (lines 759-771): the first team
slot that is not the current active slot and holds a monster with
positive HP. -/
def getNextMonsterIdx (st : BattleState) (s : Side) : Option ℕ :=
  (List.range (st.team s).length).find? (fun i =>
    decide (st.activeIdx s ≠ some i) &&
      (match (st.team s).get? i with
       | some m => decide (0 < m.currentHp)
       | none => false))

/-- Pop one `Math.random()` draw off the explicit stream.  Theorems always
supply enough draws, so the exhausted case is never exercised. -/
def drawRand : List ℚ → ℚ × List ℚ
  | [] => (0, [])
  | r :: rest => (r, rest)

/-- The damaging branch of `_executeAbility` (lines 330-348): base
formula, STAB, type effectiveness and the `0.85 + random()*0.15` factor.
`null` power coerces to `0` in the JavaScript multiplication.  `none`
marks the ill-formed chart cell. -/
def computeDamage (user target : Monster) (ability : AbilityData) (rdraw : ℚ) :
    Option (ℤ × ℚ) :=
  let attackStat : ℚ :=
    if ability.category = "physical" then (user.stats.attack : ℚ) else (user.stats.specialAttack : ℚ)
  let defenseStat : ℚ :=
    if ability.category = "physical" then (target.stats.defense : ℚ) else (target.stats.specialDefense : ℚ)
  let power : ℚ := ability.power.getD 0
  let baseDamage : ℚ := (2 * (user.level : ℚ) / 5 + 2) * power * attackStat / defenseStat / 50 + 2
  let stab : ℚ := if ability.type = user.type then 3 / 2 else 1
  match calculateTypeEffectiveness ability.type target.type with
  | none => none
  | some typeEff =>
    let random : ℚ := 0.85 + rdraw * 0.15
    some (⌊baseDamage * stab * typeEff * random⌋, typeEff)

/-- The side an effect record addresses (`effect.target === 'user' ? user
: target`). -/
def effectTargetSide (userSide : Side) (e : AbilityEffect) : Side :=
  if e.target = "user" then userSide else userSide.other

/-- The `ability.effects.forEach` loop of `_executeAbility` (lines
359-423).  Each effect consumes one chance draw; `effect.chance || 100`
maps an absent or zero chance to `100`.  Unknown effect kinds produce no
result entry.  `none` marks a dereference of a missing active monster. -/
def processEffects (db : GameDb) (userSide : Side) :
    List AbilityEffect → BattleState → List ℚ → List EffectResult →
    Option (BattleState × List EffectResult × List ℚ)
  | [], st, rnd, acc => some (st, acc, rnd)
  | e :: rest, st, rnd, acc =>
    let (r, rnd1) := drawRand rnd
    let effectChance : ℚ :=
      match e.chance with
      | some c => if c = 0 then 100 else c
      | none => 100
    if r * 100 ≤ effectChance then
      let side := effectTargetSide userSide e
      match st.activeIdx side, getActive st side with
      | some i, some tm =>
        if e.type = "stat" then
          processEffects db userSide rest st rnd1
            (acc ++ [{ type := "stat", target := tm.name, stat := e.stat, stages := e.stages }])
        else if e.type = "status" then
          let (tm2, statusApplied) := applyStatus tm e.status
          processEffects db userSide rest (setTeamAt st side i tm2) rnd1
            (acc ++ [{ type := "status", target := tm.name, status := e.status,
                       applied := some statusApplied }])
        else if e.type = "healing" then
          let healAmount : ℤ := ⌊(tm.stats.hp : ℚ) * (e.percentage.getD 0 / 100)⌋
          let (tm2, healResult) := healMonster tm (some healAmount.toNat)
          processEffects db userSide rest (setTeamAt st side i tm2) rnd1
            (acc ++ [{ type := "healing", target := tm.name, amount := some healResult.healAmount }])
        else
          processEffects db userSide rest st rnd1 acc
      | _, _ => none
    else
      processEffects db userSide rest st rnd1 acc

/-- The faint bookkeeping of `_executeAbility` (lines 425-471), entered
with the `damageResult` of the initial damage application.  Returns the
updated state, the `battleEnded` flag and the `battleResult`. -/
def resolveFaint (db : GameDb) (st : BattleState) (userSide : Side) (target : Monster)
    (damageResult : Option DamageResult) :
    Option (BattleState × Bool × Option BattleOutcome) :=
  match damageResult with
  | none => some (st, false, none)
  | some dres =>
    if dres.fainted then
      match userSide.other with
      | .enemy =>
        -- the fainted target is the active enemy monster
        match getNextMonsterIdx st .enemy with
        | some j => some ({ st with activeEnemyIdx := some j }, false, none)
        | none =>
          match st.activeIdx userSide, getActive st userSide with
          | some ui, some curUser =>
            let expYield := getExperienceYield db target
            let (user2, expResult) := awardExperience db curUser expYield
            let st2 := setTeamAt st userSide ui user2
            let outcome : BattleOutcome :=
              if expResult.canEvolve then
                { winner := some "player", canEvolve := true, evolutionId := expResult.evolutionId }
              else
                { winner := some "player" }
            some (endBattle st2 outcome, true, some outcome)
          | _, _ => none
      | .player =>
        -- the fainted target is the active player monster
        match getNextMonsterIdx st .player with
        | some _ => some (st, false, some { needSwitch := true })
        | none =>
          let outcome : BattleOutcome := { winner := some "enemy" }
          some (endBattle st outcome, true, some outcome)
    else
      some (st, false, none)

/-- `BattleSystem._executeAbility(user, target, abilityId)` (lines
299-499).  `userSide` designates the attacker; the target is the other
side's active monster.  Draws consumed in source order: accuracy, then
(for damaging categories) the damage factor, then one per effect. -/
def executeAbility (db : GameDb) (st : BattleState) (userSide : Side)
    (abilityId : Option String) (rnd : List ℚ) :
    Option (BattleState × ActionResult × List ℚ) :=
  match abilityId.bind (dbFind db.abilities) with
  | none => some (st, { success := false, message := "Ability not found" }, rnd)
  | some ability =>
    match getActive st userSide with
    | none => none
    | some user =>
      if (abilityId.elim false (fun aid => user.abilities.contains aid)) = false then
        some (st, { success := false, message := "Monster does not know this ability" }, rnd)
      else
        let (r1, rnd1) := drawRand rnd
        if ¬ (r1 * 100 ≤ ability.accuracy) then
          some (st,
            { success := true, hit := some false,
              message := user.name ++ " " ++ ability.name ++ " missed!" }, rnd1)
        else
          match st.activeIdx userSide.other, getActive st userSide.other with
          | some ti, some target =>
            let dmgStep : Option (ℤ × ℚ × List ℚ) :=
              if ability.category = "physical" ∨ ability.category = "special" then
                let (r2, rnd2) := drawRand rnd1
                match computeDamage user target ability r2 with
                | none => none
                | some (d, te) => some (d, te, rnd2)
              else
                some (0, 1, rnd1)
            match dmgStep with
            | none => none
            | some (damage, typeEffectiveness, rnd2) =>
              let (st1, damageResult) :=
                if 0 < damage then
                  let (tm2, dres) := applyDamage target damage.toNat
                  (setTeamAt st userSide.other ti tm2, some dres)
                else
                  (st, none)
              match processEffects db userSide ability.effects st1 rnd2 [] with
              | none => none
              | some (st2, effectResults, rnd3) =>
                match resolveFaint db st2 userSide target damageResult with
                | none => none
                | some (st3, battleEnded, battleResult) =>
                  let baseMsg := user.name ++ " used " ++ ability.name ++ "!"
                  let message :=
                    if 1 < typeEffectiveness then baseMsg ++ " It is super effective!"
                    else if typeEffectiveness < 1 ∧ 0 < typeEffectiveness then
                      baseMsg ++ " It is not very effective..."
                    else if typeEffectiveness = 0 then baseMsg ++ " It has no effect!"
                    else baseMsg
                  some (st3,
                    { success := true
                      hit := some true
                      user := some user.name
                      target := some target.name
                      ability := some ability.name
                      damage := some damage
                      typeEffectiveness := some typeEffectiveness
                      effects := effectResults
                      damageResult := damageResult
                      battleEnded := battleEnded
                      battleResult := battleResult
                      message := message }, rnd3)
          | _, _ => none

/-- `BattleSystem._useItem(itemId, targetId)` (lines 508-612). -/
def useItem (db : GameDb) (st : BattleState) (itemId targetId : Option String)
    (rnd : List ℚ) : Option (BattleState × ActionResult × List ℚ) :=
  match itemId.bind (dbFind db.items) with
  | none => some (st, { success := false, message := "Item not found" }, rnd)
  | some item =>
    -- target search: the `forEach` keeps the last player-team member whose
    -- `id` matches; an absent or empty (falsy) targetId selects the active
    -- player monster
    let targetIdx : Option ℕ :=
      match targetId with
      | some tid =>
        if tid = "" then st.activePlayerIdx
        else
          (List.range st.playerTeam.length).foldl (fun acc i =>
            match st.playerTeam.get? i with
            | some m => if m.id = tid then some i else acc
            | none => acc) none
      | none => st.activePlayerIdx
    match targetIdx.bind (fun i => (st.playerTeam.get? i).map (fun m => (i, m))) with
    | none => some (st, { success := false, message := "Target monster not found" }, rnd)
    | some (ti, target) =>
      if item.type = "potion" then
        let healAmount : ℕ :=
          match item.effect.amount with
          | some a => if a = 0 then 20 else a
          | none => 20
        let (target2, healResult) := healMonster target (some healAmount)
        some (setTeamAt st .player ti target2,
          { success := true, type := some "heal", target := some target.name,
            amount := some healResult.healAmount,
            message := "Used " ++ item.name ++ " on " ++ target.name ++ "." }, rnd)
      else if item.type = "ball" then
        if st.battleType ≠ "wild" then
          some (st, { success := false, message := "Cannot use this on a trainer monster!" }, rnd)
        else
          match getActive st .enemy with
          | none => none
          | some enemyMonster =>
            let ballBonus : ℚ :=
              match item.effect.catchRate with
              | some c => if c = 0 then 1 else c
              | none => 1
            let (r, rnd1) := drawRand rnd
            let caught := attemptCatch enemyMonster ballBonus (enemyMonster.status.isSome) r
            if caught then
              let outcome : BattleOutcome :=
                { winner := some "player", caught := true, monster := some enemyMonster }
              some (endBattle st outcome,
                { success := true, type := some "catch", caught := some true,
                  target := some enemyMonster.name, battleEnded := true,
                  battleResult := some outcome,
                  message := "Caught " ++ enemyMonster.name ++ "!" }, rnd1)
            else
              some (st,
                { success := true, type := some "catch", caught := some false,
                  target := some enemyMonster.name,
                  message := enemyMonster.name ++ " broke free!" }, rnd1)
      else
        some (st, { success := false, message := "Item cannot be used in battle" }, rnd)

/-- `BattleSystem._switchMonster(team, index)` (lines 621-675).  `none`
marks the name dereference of a missing previous active monster. -/
def switchMonster (st : BattleState) (team : Side) (index : ℤ) :
    Option (BattleState × ActionResult) :=
  let teamArray := st.team team
  if index < 0 ∨ (teamArray.length : ℤ) ≤ index then
    some (st, { success := false, message := "Invalid monster index" })
  else
    match teamArray.get? index.toNat with
    | none => some (st, { success := false, message := "Invalid monster index" })
    | some chosen =>
      if st.activeIdx team = some index.toNat then
        some (st, { success := false, message := "Monster is already active" })
      else if chosen.currentHp ≤ 0 then
        some (st, { success := false, message := "Cannot switch to fainted monster" })
      else
        match getActive st team with
        | none => none
        | some previousMonster =>
          match team with
          | .player =>
            some ({ st with activePlayerIdx := some index.toNat },
              { success := true, team := some "player",
                previous := some previousMonster.name, current := some chosen.name,
                message := "Go, " ++ chosen.name ++ "!" })
          | .enemy =>
            some ({ st with activeEnemyIdx := some index.toNat },
              { success := true, team := some "enemy",
                previous := some previousMonster.name, current := some chosen.name,
                message := "Enemy sent out " ++ chosen.name ++ "!" })

/-- `BattleSystem._attemptRun()` (lines 682-723).  The attempt counter is
incremented before the escape chance is computed, on every wild-battle
call; a trainer battle fails before touching it. -/
def attemptRun (st : BattleState) (rnd : List ℚ) :
    Option (BattleState × ActionResult × List ℚ) :=
  if st.battleType ≠ "wild" then
    some (st, { success := false, message := "Cannot run from a trainer battle!" }, rnd)
  else
    match getActive st .player, getActive st .enemy with
    | some playerMonster, some enemyMonster =>
      let st1 := { st with runAttempts := st.runAttempts + 1 }
      let escapeChance : ℤ :=
        ⌊(playerMonster.stats.speed : ℚ) * 128 / (enemyMonster.stats.speed : ℚ)
          + 30 * (st1.runAttempts : ℚ)⌋
      let (r, rnd1) := drawRand rnd
      let randomValue : ℤ := ⌊r * 256⌋
      if randomValue < escapeChance then
        let outcome : BattleOutcome := { escaped := true }
        some (endBattle st1 outcome,
          { success := true, escaped := some true, battleEnded := true,
            battleResult := some outcome, message := "Got away safely!" }, rnd1)
      else
        some (st1,
          { success := true, escaped := some false,
            message := "Could not escape!" }, rnd1)
    | _, _ => none

/-- `BattleSystem._executeEnemyAction()` (lines 730-751): uniform-random
choice among the enemy's known abilities, then `_executeAbility`. -/
def executeEnemyAction (db : GameDb) (st : BattleState) (rnd : List ℚ) :
    Option (BattleState × ActionResult × List ℚ) :=
  match getActive st .enemy with
  | none => some (st, { success := false, message := "No active enemy monster" }, rnd)
  | some enemyMonster =>
    let abilities := enemyMonster.abilities
    if abilities.length = 0 then
      some (st, { success := false, message := "Enemy has no abilities" }, rnd)
    else
      let (r, rnd1) := drawRand rnd
      let idx : ℤ := ⌊r * (abilities.length : ℚ)⌋
      let chosen : Option String := if 0 ≤ idx then abilities.get? idx.toNat else none
      executeAbility db st .enemy chosen rnd1

/-- One `_applyStatusEffects` step for a single active monster (lines
802-818): burn and poison each deal `max(1, floor(maxHp/8))`. -/
def tickStatus (st : BattleState) (s : Side) : BattleState :=
  match st.activeIdx s, getActive st s with
  | some i, some monster =>
    match monster.status with
    | some "burn" => setTeamAt st s i (applyDamage monster (max 1 (monster.stats.hp / 8))).1
    | some "poison" => setTeamAt st s i (applyDamage monster (max 1 (monster.stats.hp / 8))).1
    | _ => st
  | _, _ => st

/-- `BattleSystem._applyStatusEffects()` (lines 795-819): player active
monster first, then enemy active monster. -/
def applyStatusEffects (st : BattleState) : BattleState :=
  tickStatus (tickStatus st .player) .enemy

/-- `BattleSystem._applyWeatherEffects()` (lines 825-845): every weather
case has an empty body, so the state is unchanged. -/
def applyWeatherEffects (st : BattleState) : BattleState :=
  match st.weather with
  | none => st
  | some _ => st

/-- `BattleSystem._startNewTurn()` (lines 777-789): increment the turn
counter, then tick status effects, then weather effects. -/
def startNewTurn (st : BattleState) : BattleState :=
  applyWeatherEffects (applyStatusEffects { st with turn := st.turn + 1 })

/-- The discriminated player action record (`{type, targetId, abilityId,
itemId, switchIndex}`). -/
structure PlayerAction where
  type : String
  targetId : Option String := none
  abilityId : Option String := none
  itemId : Option String := none
  switchIndex : ℤ := 0
deriving Repr, DecidableEq

/-- `BattleSystem.executePlayerAction(action)` (lines 234-289).  After a
successful player action whose own result does not carry `battleEnded`,
one enemy action is resolved and attached, and then — on the very same
check of the player result, which the enemy action cannot change — a new
turn is started. -/
def executePlayerAction (db : GameDb) (st : BattleState) (action : PlayerAction)
    (rnd : List ℚ) : Option (BattleState × TurnResult × List ℚ) :=
  if st.active = false then
    some (st, { result := { success := false, message := "Battle is not active" } }, rnd)
  else
    match getActive st .player with
    | none =>
      some (st, { result := { success := false, message := "No active player monster" } }, rnd)
    | some _ =>
      let step1 : Option (BattleState × ActionResult × List ℚ) :=
        if action.type = "ability" then executeAbility db st .player action.abilityId rnd
        else if action.type = "item" then useItem db st action.itemId action.targetId rnd
        else if action.type = "switch" then
          (switchMonster st .player action.switchIndex).map (fun p => (p.1, p.2, rnd))
        else if action.type = "run" then attemptRun st rnd
        else some (st, { success := false, message := "Invalid action type" }, rnd)
      match step1 with
      | none => none
      | some (st1, result, rnd1) =>
        if result.success = true ∧ result.battleEnded = false then
          match executeEnemyAction db st1 rnd1 with
          | none => none
          | some (st2, enemyResult, rnd2) =>
            -- the second source check re-reads the player result
            -- (`result.success && !result.battleEnded`), which attaching
            -- `enemyAction` does not modify, so it is true again here even
            -- when the enemy action itself ended the battle
            let st3 :=
              if result.success = true ∧ result.battleEnded = false then startNewTurn st2
              else st2
            some (st3, { result := result, enemyAction := some enemyResult }, rnd2)
        else
          some (st1, { result := result }, rnd1)

/-! ## Concrete fixtures used by witnesses and counterexamples -/

/-- Demonstration species: evolves into `"tree"` at level 7, medium
growth. -/
def sproutSpecies : SpeciesData :=
  { id := "sprout", name := "Sprout", type := "grass"
    baseStats := ⟨45, 49, 49, 65, 65, 45⟩
    abilityLevels := [("tackle", 1), ("vine", 7)]
    evolution := some { level := some 7, evolvesTo := some "tree" }
    catchRate := 45, expYield := 64, growthRate := "medium" }

/-- Demonstration species: evolution target of `sproutSpecies`. -/
def treeSpecies : SpeciesData :=
  { id := "tree", name := "Tree", type := "grass"
    baseStats := ⟨60, 62, 63, 80, 80, 60⟩
    abilityLevels := [("tackle", 1), ("vine", 7)]
    evolution := none
    catchRate := 45, expYield := 142, growthRate := "medium" }

/-- Demonstration data set. -/
def demoDb : GameDb :=
  { monsters := [("sprout", sproutSpecies), ("tree", treeSpecies)] }

/-- All-zero stat block shorthand for fixtures. -/
def zeroStats : Stats := ⟨0, 0, 0, 0, 0, 0⟩

/-- A level-5 sprout with consistent derived stats and 10/19 HP. -/
def sproutL5 : Monster :=
  { id := "sprout", name := "Sprout", type := "grass", level := 5
    experience := 125, nextLevelExperience := 216
    baseStats := sproutSpecies.baseStats
    stats := calculateStats sproutSpecies.baseStats 5 zeroStats zeroStats
    currentHp := 10
    ivs := zeroStats, evs := zeroStats
    abilities := ["tackle"], status := none, catchRate := 45 }

/-- A level-10 sprout, already past the level-7 evolution threshold, with
its experience below the next-level threshold. -/
def sproutL10 : Monster :=
  { id := "sprout", name := "Sprout", type := "grass", level := 10
    experience := 1000, nextLevelExperience := 1331
    baseStats := sproutSpecies.baseStats
    stats := calculateStats sproutSpecies.baseStats 10 zeroStats zeroStats
    currentHp := 12
    ivs := zeroStats, evs := zeroStats
    abilities := ["tackle", "vine"], status := none, catchRate := 45 }

/-- A level-6 sprout three experience points short of level 7. -/
def sproutL6 : Monster :=
  { id := "sprout", name := "Sprout", type := "grass", level := 6
    experience := 340, nextLevelExperience := 343
    baseStats := sproutSpecies.baseStats
    stats := calculateStats sproutSpecies.baseStats 6 zeroStats zeroStats
    currentHp := 15
    ivs := zeroStats, evs := zeroStats
    abilities := ["tackle"], status := none, catchRate := 45 }

/-! ## Claim theorems -/

/-- Equality of every monster field except `currentHp`. -/
def sameExceptHp (a b : Monster) : Prop :=
  a.id = b.id ∧ a.name = b.name ∧ a.type = b.type ∧ a.level = b.level ∧
  a.experience = b.experience ∧ a.nextLevelExperience = b.nextLevelExperience ∧
  a.baseStats = b.baseStats ∧ a.stats = b.stats ∧ a.ivs = b.ivs ∧ a.evs = b.evs ∧
  a.abilities = b.abilities ∧ a.status = b.status ∧ a.catchRate = b.catchRate

/-- C10: `applyDamage` and `healMonster` mutate no field of the instance
other than `currentHp`: level, experience, nextLevelExperience, stats,
ivs, evs, abilities, status and catchRate (and id/name/type/baseStats)
are unchanged, for every monster, damage amount and heal amount. -/
theorem c10_damage_heal_touch_only_hp (m : Monster) (damage : ℕ) (amount : Option ℕ) :
    sameExceptHp m (applyDamage m damage).1 ∧ sameExceptHp m (healMonster m amount).1 := by
  constructor <;> simp [sameExceptHp, applyDamage, healMonster]

/-- C4 counterexample: requesting an unknown species id from
`createMonster` does not raise a `NotFoundError`-style hard error — the
source logs to the console and returns `null` (`none`); no error type
named `NotFoundError` exists anywhere in the repository. -/
theorem c4_unknown_species_returns_null :
    createMonster { } "missingno" 5 { } zeroStats = none := by
  rfl

/-- C4 (amended): `createMonster` returns an instance of the requested
species when the id is known, and returns `null` (`none`) — a value
distinguishable from any successful instance, though not an error object
— when the id is unknown. -/
theorem c4_createMonster_known_vs_unknown (db : GameDb) (monsterId : String)
    (level : ℕ) (options : CreateOptions) (randomIvs : Stats) :
    (dbFind db.monsters monsterId = none →
      createMonster db monsterId level options randomIvs = none) ∧
    (∀ md, dbFind db.monsters monsterId = some md →
      ∃ m, createMonster db monsterId level options randomIvs = some m ∧ m.id = md.id) := by
  constructor
  · intro h
    simp [createMonster, h]
  · intro md h
    simp only [createMonster, h]
    exact ⟨_, rfl, rfl⟩

/-- Closed witness for C4's amended theorem at concrete inputs. -/
theorem c4_createMonster_known_vs_unknown_witness :
    createMonster { } "missingno" 7 { } zeroStats = none ∧
    ∃ m, createMonster demoDb "sprout" 7 { } zeroStats = some m ∧ m.id = "sprout" := by
  constructor
  · exact (c4_createMonster_known_vs_unknown { } "missingno" 7 { } zeroStats).1 rfl
  · obtain ⟨m, hm, hid⟩ :=
      (c4_createMonster_known_vs_unknown demoDb "sprout" 7 { } zeroStats).2
        sproutSpecies rfl
    exact ⟨m, hm, hid⟩

/-- The numeric multipliers the claim allows for a defined chart cell. -/
def cellInRange : Cell → Bool
  | Cell.num q => decide (q = 0 ∨ q = 1 / 2 ∨ q = 1 ∨ q = 2)
  | Cell.unbound _ => false

/-- C1: the (fighting, water) cell of the type chart is the unbound
identifier `A` — evaluating the `_typeChart` object literal throws a
`ReferenceError`, so the lookup is not total and that cell's multiplier is
not in {0, 0.5, 1, 2}.  Every other cell is numeric with a multiplier in
{0, 0.5, 1, 2}, and a pair with either type absent from the chart (such
as `fairy`) does default to exactly 1. -/
theorem c1_type_chart_ill_formed_cell :
    chartCell "fighting" "water" = some (Cell.unbound "A") ∧
    (typeChart.all fun row => row.2.all fun c =>
      cellInRange c.2 || (row.1 == "fighting" && c.1 == "water")) = true ∧
    calculateTypeEffectiveness "fairy" "flying" = some 1 ∧
    calculateTypeEffectiveness "fire" "fairy" = some 1 := by
  refine ⟨by decide, ?_, by norm_num +decide [calculateTypeEffectiveness, chartCell, dbFind, typeChart], by norm_num +decide [calculateTypeEffectiveness, chartCell, dbFind, typeChart]⟩
  simp only [typeChart, List.all_cons, List.all_nil, Bool.and_eq_true, Bool.or_eq_true,
    Bool.and_true, beq_iff_eq, cellInRange, decide_eq_true_eq]
  norm_num

/-- C7 counterexample: a level-10 sprout (threshold 7 already met) that
gains no level from an `awardExperience` call gets `canEvolve = false`
even though a level-based evolution rule exists and its level meets the
threshold — the source additionally requires `levelUp` from this call. -/
theorem c7_no_levelup_means_no_canEvolve :
    (awardExperience demoDb sproutL10 0).2.canEvolve = false ∧
    sproutSpecies.evolution = some { level := some 7, evolvesTo := some "tree" } ∧
    dbFind demoDb.monsters sproutL10.id = some sproutSpecies ∧
    7 ≤ sproutL10.level ∧
    (awardExperience demoDb sproutL10 0).1.level = 10 := by
  refine ⟨?_, rfl, rfl, by decide, ?_⟩ <;> decide

/-- C7 (amended): after the level-up loop, if the monster leveled up in
this call, the species has a level-based evolution rule (with a non-zero,
hence truthy, threshold) and the final level meets the threshold, then
the result reports `canEvolve = true` with the evolution target id. -/
theorem c7_awardExperience_canEvolve (db : GameDb) (m : Monster) (amount : ℕ)
    (md : SpeciesData) (ev : EvolutionRule) (threshold : ℕ)
    (hmd : dbFind db.monsters m.id = some md)
    (hev : md.evolution = some ev)
    (hth : ev.level = some threshold) (hth0 : threshold ≠ 0)
    (hup : (awardExperience db m amount).2.leveledUp = true)
    (hge : threshold ≤ (awardExperience db m amount).1.level) :
    (awardExperience db m amount).2.canEvolve = true ∧
    (awardExperience db m amount).2.evolutionId = ev.evolvesTo := by
  revert hup hge
  simp only [awardExperience, hmd, hev, hth]
  rcases levelUpGo md (MAX_MONSTER_LEVEL - m.level) { m with experience := m.experience + amount } [] with ⟨m2, abs2, ranOnce⟩
  simp only []
  intro hup hge
  subst hup
  simp [hth0, hge]

/-- Closed witness for C7's amended theorem: a level-6 sprout gaining
enough experience for level 7 reports `canEvolve` with target "tree". -/
theorem c7_awardExperience_canEvolve_witness :
    (awardExperience demoDb sproutL6 10).2.canEvolve = true ∧
    (awardExperience demoDb sproutL6 10).2.evolutionId = some "tree" := by
  have h := c7_awardExperience_canEvolve demoDb sproutL6 10 sproutSpecies
    { level := some 7, evolvesTo := some "tree" } 7 rfl rfl rfl
    (by decide) (by decide) (by decide)
  exact ⟨h.1, h.2⟩

/-- The HP invariant of the data model: `0 ≤ currentHp ≤ stats.hp`. -/
def hpInvariant (m : Monster) : Prop :=
  0 ≤ m.currentHp ∧ m.currentHp ≤ (m.stats.hp : ℤ)

/-- A monster whose derived stats agree with its base stats, level, IVs
and EVs — true of every instance `createMonster` produces and maintained
by the level-up loop. -/
def statsConsistent (m : Monster) : Prop :=
  m.stats = calculateStats m.baseStats m.level m.ivs m.evs

/-- The derived HP is monotone in the level. -/
theorem calculateStats_hp_mono (b i e : Stats) (l : ℕ) :
    (calculateStats b l i e).hp ≤ (calculateStats b (l + 1) i e).hp := by
  simp only [calculateStats]
  have h1 : (2 * b.hp + i.hp + e.hp / 4) * l / 100 ≤
      (2 * b.hp + i.hp + e.hp / 4) * (l + 1) / 100 :=
    Nat.div_le_div_right (Nat.mul_le_mul_left _ (Nat.le_succ l))
  omega

/-- The monster after one iteration of the level-up loop body (proof
abbreviation for the update inlined in `levelUpGo`). -/
def levelStep (md : SpeciesData) (m : Monster) : Monster :=
  { m with
    level := m.level + 1
    stats := calculateStats m.baseStats (m.level + 1) m.ivs m.evs
    currentHp := m.currentHp +
      (((calculateStats m.baseStats (m.level + 1) m.ivs m.evs).hp : ℤ) - (m.stats.hp : ℤ))
    nextLevelExperience := getLevelExperience (m.level + 1 + 1) md.growthRate }

/-- The abilities collected in one iteration of the level-up loop body. -/
def levelGain (md : SpeciesData) (m : Monster) : List String :=
  (md.abilityLevels.filter (fun p => p.2 = m.level + 1)).map Prod.fst

/-- Unfolding equation of `levelUpGo` at positive fuel, phrased with the
proof abbreviations. -/
theorem levelUpGo_succ (md : SpeciesData) (f : ℕ) (m : Monster) (acc : List String) :
    levelUpGo md (f + 1) m acc =
      if m.nextLevelExperience ≤ m.experience ∧ m.level < MAX_MONSTER_LEVEL then
        ((levelUpGo md f (levelStep md m) (acc ++ levelGain md m)).1,
         (levelUpGo md f (levelStep md m) (acc ++ levelGain md m)).2.1, true)
      else (m, acc, false) := by
  rw [levelUpGo]
  rcases h : levelUpGo md f (levelStep md m) (acc ++ levelGain md m) with ⟨m2, abs2, flag⟩
  simp only [ge_iff_le, levelStep, levelGain] at h ⊢
  split
  · rw [h]
  · rfl

/-- The level-up loop never lowers the level. -/
theorem levelUpGo_level_le (md : SpeciesData) (fuel : ℕ) (m : Monster) (acc : List String) :
    m.level ≤ (levelUpGo md fuel m acc).1.level := by
  induction fuel generalizing m acc with
  | zero => simp [levelUpGo]
  | succ f ih =>
    rw [levelUpGo_succ]
    split
    · have := ih (levelStep md m) (acc ++ levelGain md m)
      simp only [levelStep] at this
      simpa using le_trans (Nat.le_succ m.level) this
    · exact le_refl _

/-- The level-up loop exits only when the source loop condition fails,
provided the fuel covers the remaining level headroom. -/
theorem levelUpGo_exit (md : SpeciesData) (fuel : ℕ) (m : Monster) (acc : List String)
    (hfuel : MAX_MONSTER_LEVEL - m.level ≤ fuel) :
    ¬((levelUpGo md fuel m acc).1.nextLevelExperience ≤ (levelUpGo md fuel m acc).1.experience ∧
      (levelUpGo md fuel m acc).1.level < MAX_MONSTER_LEVEL) := by
  induction fuel generalizing m acc with
  | zero =>
    simp only [levelUpGo]
    omega
  | succ f ih =>
    rw [levelUpGo_succ]
    split
    case isTrue h =>
      have := ih (levelStep md m) (acc ++ levelGain md m) (by simp [levelStep]; omega)
      simpa using this
    case isFalse h =>
      simpa using h

/-- The level-up loop preserves stats-consistency and the HP invariant. -/
theorem levelUpGo_inv (md : SpeciesData) (fuel : ℕ) (m : Monster) (acc : List String)
    (hc : statsConsistent m) (hinv : hpInvariant m) :
    statsConsistent (levelUpGo md fuel m acc).1 ∧ hpInvariant (levelUpGo md fuel m acc).1 := by
  induction fuel generalizing m acc with
  | zero => simpa [levelUpGo] using ⟨hc, hinv⟩
  | succ f ih =>
    rw [levelUpGo_succ]
    split
    case isTrue h =>
      have hmono := calculateStats_hp_mono m.baseStats m.ivs m.evs m.level
      have hchp : (m.stats.hp : ℤ) ≤
          ((calculateStats m.baseStats (m.level + 1) m.ivs m.evs).hp : ℤ) := by
        rw [statsConsistent] at hc
        rw [hc]
        exact_mod_cast hmono
      have hstep := ih (levelStep md m) (acc ++ levelGain md m)
        (by simp [statsConsistent, levelStep])
        (by
          rcases hinv with ⟨h0, hh⟩
          constructor
          · simp only [levelStep]
            omega
          · simp only [levelStep]
            omega)
      simpa using hstep
    case isFalse h => exact ⟨hc, hinv⟩

/-- The updated monster returned by `awardExperience` is the level-up
loop's result on the experience-incremented monster. -/
theorem awardExperience_fst (db : GameDb) (m : Monster) (amount : ℕ) (md : SpeciesData)
    (hmd : dbFind db.monsters m.id = some md) :
    (awardExperience db m amount).1 =
      (levelUpGo md (MAX_MONSTER_LEVEL - m.level)
        { m with experience := m.experience + amount } []).1 := by
  simp only [awardExperience, hmd]

/-- C5: for every monster with `0 ≤ currentHp ≤ stats.hp`, `applyDamage`
never drives `currentHp` below 0 (in fact for every monster whatsoever),
damage at or beyond the current HP leaves `currentHp` exactly 0 with
`fainted = true` (so repeated damage beyond the maximum stays at 0,
fainted), and the invariant `0 ≤ currentHp ≤ stats.hp` is preserved by
`applyDamage`, `healMonster`, `applyStatus`, `clearStatus` and — for
instances whose derived stats match their level, as `createMonster`
guarantees — `awardExperience`. -/
theorem c5_hp_invariant_preserved :
    (∀ m damage, 0 ≤ ((applyDamage m damage).1).currentHp) ∧
    (∀ m damage, hpInvariant m → hpInvariant (applyDamage m damage).1 ∧
      ((applyDamage m damage).2.fainted = true ↔ (applyDamage m damage).1.currentHp = 0)) ∧
    (∀ m (damage : ℕ), hpInvariant m → m.currentHp ≤ (damage : ℤ) →
      (applyDamage m damage).1.currentHp = 0 ∧ (applyDamage m damage).2.fainted = true) ∧
    (∀ m amount, hpInvariant m → hpInvariant (healMonster m amount).1) ∧
    (∀ m status, hpInvariant m → hpInvariant (applyStatus m status).1) ∧
    (∀ m, hpInvariant m → hpInvariant (clearStatus m).1) ∧
    (∀ db m amount, statsConsistent m → hpInvariant m →
      hpInvariant (awardExperience db m amount).1) := by
  refine ⟨?_, ?_, ?_, ?_, ?_, ?_, ?_⟩
  · intro m damage
    simp [applyDamage]
  · intro m damage hinv
    rcases hinv with ⟨h0, hh⟩
    refine ⟨⟨?_, ?_⟩, ?_⟩
    · simp [applyDamage, hpInvariant]
    · simp only [applyDamage]
      omega
    · simp [applyDamage]
  · intro m damage hinv hle
    rcases hinv with ⟨h0, hh⟩
    refine ⟨?_, ?_⟩
    · simp only [applyDamage]
      omega
    · simp only [applyDamage]
      simp only [decide_eq_true_eq]
      omega
  · intro m amount hinv
    rcases hinv with ⟨h0, hh⟩
    rcases amount with _ | amt
    · refine ⟨?_, ?_⟩ <;> simp [healMonster]
    · refine ⟨?_, ?_⟩ <;> simp only [healMonster, hpInvariant] <;> omega
  · intro m status hinv
    rcases hinv with ⟨h0, hh⟩
    simp only [applyStatus]
    split <;> exact ⟨h0, hh⟩
  · intro m hinv
    exact hinv
  · intro db m amount hc hinv
    rcases hfind : dbFind db.monsters m.id with _ | md
    · simpa [awardExperience, hfind] using hinv
    · rw [awardExperience_fst db m amount md hfind]
      exact (levelUpGo_inv md (MAX_MONSTER_LEVEL - m.level)
        { m with experience := m.experience + amount } []
        (by simpa [statsConsistent] using hc)
        (by rcases hinv with ⟨h0, hh⟩; exact ⟨h0, hh⟩)).2

/-- Closed witness for C5 at concrete inputs: the invariant holds after
damage, over-damage leaves 0 HP and fainted, and a 510-point award (two
level-ups) keeps the invariant. -/
theorem c5_hp_invariant_preserved_witness :
    hpInvariant (applyDamage sproutL5 3).1 ∧
    ((applyDamage sproutL5 999).1.currentHp = 0 ∧ (applyDamage sproutL5 999).2.fainted = true) ∧
    hpInvariant (healMonster sproutL5 (some 100)).1 ∧
    hpInvariant (awardExperience demoDb sproutL5 510).1 := by
  refine ⟨(c5_hp_invariant_preserved.2.1 sproutL5 3 ?_).1,
    c5_hp_invariant_preserved.2.2.1 sproutL5 999 ?_ ?_,
    c5_hp_invariant_preserved.2.2.2.1 sproutL5 (some 100) ?_,
    c5_hp_invariant_preserved.2.2.2.2.2.2 demoDb sproutL5 510 ?_ ?_⟩ <;>
    first
      | decide
      | rfl
      | exact ⟨by decide, by decide⟩

/-- C6: for every monster whose species is known and every (non-negative)
experience amount, `awardExperience` never lowers the level, and after
the call `nextLevelExperience` strictly exceeds `experience` unless the
level is capped at `MAX_MONSTER_LEVEL` (100). -/
theorem c6_awardExperience_monotone (db : GameDb) (m : Monster) (amount : ℕ)
    (md : SpeciesData) (hmd : dbFind db.monsters m.id = some md) :
    m.level ≤ (awardExperience db m amount).1.level ∧
    ((awardExperience db m amount).1.level < MAX_MONSTER_LEVEL →
      (awardExperience db m amount).1.experience <
        (awardExperience db m amount).1.nextLevelExperience) := by
  have hfst := awardExperience_fst db m amount md hmd
  constructor
  · rw [hfst]
    simpa using levelUpGo_level_le md (MAX_MONSTER_LEVEL - m.level)
      { m with experience := m.experience + amount } []
  · rw [hfst]
    intro hlt
    have hexit := levelUpGo_exit md (MAX_MONSTER_LEVEL - m.level)
      { m with experience := m.experience + amount } [] (by simp)
    omega

/-- Closed witness for C6: the level-6 sprout gaining 10 experience ends
at level 7 with its experience strictly below the next threshold. -/
theorem c6_awardExperience_monotone_witness :
    (sproutL6.level ≤ (awardExperience demoDb sproutL6 10).1.level ∧
      ((awardExperience demoDb sproutL6 10).1.level < MAX_MONSTER_LEVEL →
        (awardExperience demoDb sproutL6 10).1.experience <
          (awardExperience demoDb sproutL6 10).1.nextLevelExperience)) ∧
    (awardExperience demoDb sproutL6 10).1.level = 7 ∧
    (awardExperience demoDb sproutL6 10).1.experience = 350 ∧
    (awardExperience demoDb sproutL6 10).1.nextLevelExperience = 512 := by
  refine ⟨c6_awardExperience_monotone demoDb sproutL6 10 sproutSpecies rfl, ?_, ?_, ?_⟩ <;>
    decide

/-- A level-5 tree monster (species without an evolution target). -/
def treeL5 : Monster :=
  { id := "tree", name := "Tree", type := "grass", level := 5
    experience := 125, nextLevelExperience := 216
    baseStats := treeSpecies.baseStats
    stats := calculateStats treeSpecies.baseStats 5 zeroStats zeroStats
    currentHp := 9
    ivs := zeroStats, evs := zeroStats
    abilities := ["tackle"], status := none, catchRate := 45 }

/-- C8: when the monster's species defines an evolution target (present
in the data, with a truthy id) `evolveMonster` produces an instance of
the target species at the same level with the same IVs and EVs, carries
over the `experience` and `nextLevelExperience` counters, and sets the
new instance's `currentHp` to `⌊newMaxHp · oldCurrentHp / oldMaxHp⌋`
(preserving the HP ratio up to the floor); when the species has no
evolution target the original instance is returned unchanged. -/
theorem c8_evolveMonster_spec (db : GameDb) (m : Monster) (randomIvs : Stats) :
    (∀ md, dbFind db.monsters m.id = some md → md.evolution = none →
      evolveMonster db m randomIvs = m) ∧
    (∀ md ev targetId td, dbFind db.monsters m.id = some md →
      md.evolution = some ev → ev.evolvesTo = some targetId → targetId ≠ "" →
      dbFind db.monsters targetId = some td → m.level ≠ 0 → 0 < m.stats.hp →
      (evolveMonster db m randomIvs).id = td.id ∧
      (evolveMonster db m randomIvs).level = m.level ∧
      (evolveMonster db m randomIvs).ivs = m.ivs ∧
      (evolveMonster db m randomIvs).evs = m.evs ∧
      (evolveMonster db m randomIvs).experience = m.experience ∧
      (evolveMonster db m randomIvs).nextLevelExperience = m.nextLevelExperience ∧
      (evolveMonster db m randomIvs).stats = calculateStats td.baseStats m.level m.ivs m.evs ∧
      (evolveMonster db m randomIvs).currentHp =
        ⌊((evolveMonster db m randomIvs).stats.hp : ℚ) * (m.currentHp : ℚ) /
          (m.stats.hp : ℚ)⌋) := by
  constructor
  · intro md hmd hev
    simp [evolveMonster, hmd, hev]
  · intro md ev targetId td hmd hev hto hne htd hlv hhp
    have hcreate : createMonster db targetId m.level
        { ivs := some m.ivs, evs := some m.evs } randomIvs =
        some
          { id := td.id
            name := td.name
            type := td.type
            level := m.level
            experience := getLevelExperience m.level td.growthRate
            nextLevelExperience := getLevelExperience (m.level + 1) td.growthRate
            baseStats := td.baseStats
            stats := calculateStats td.baseStats m.level m.ivs m.evs
            currentHp := ((calculateStats td.baseStats m.level m.ivs m.evs).hp : ℤ)
            ivs := m.ivs
            evs := m.evs
            abilities := getAbilitiesForLevel td m.level
            status := none
            catchRate := td.catchRate } := by
      simp [createMonster, htd, hlv]
    have hres : evolveMonster db m randomIvs =
        { id := td.id
          name := td.name
          type := td.type
          level := m.level
          experience := m.experience
          nextLevelExperience := m.nextLevelExperience
          baseStats := td.baseStats
          stats := calculateStats td.baseStats m.level m.ivs m.evs
          currentHp :=
            ⌊((calculateStats td.baseStats m.level m.ivs m.evs).hp : ℚ) *
              ((m.currentHp : ℚ) / (m.stats.hp : ℚ))⌋
          ivs := m.ivs
          evs := m.evs
          abilities := getAbilitiesForLevel td m.level
          status := none
          catchRate := td.catchRate } := by
      simp [evolveMonster, hmd, hev, hto, hne, htd, hcreate]
    rw [hres]
    refine ⟨rfl, rfl, rfl, rfl, rfl, rfl, rfl, ?_⟩
    rw [mul_div_assoc]

/-- Closed witness for C8: the level-5 sprout (10/19 HP) evolves into a
tree at level 5 with `⌊21 · 10 / 19⌋ = 11` of 21 HP, same IVs/EVs and
carried-over experience counters; the tree itself (no evolution rule)
evolves to itself. -/
theorem c8_evolveMonster_spec_witness :
    evolveMonster demoDb treeL5 zeroStats = treeL5 ∧
    (evolveMonster demoDb sproutL5 zeroStats).id = "tree" ∧
    (evolveMonster demoDb sproutL5 zeroStats).level = 5 ∧
    (evolveMonster demoDb sproutL5 zeroStats).experience = 125 ∧
    (evolveMonster demoDb sproutL5 zeroStats).nextLevelExperience = 216 ∧
    (evolveMonster demoDb sproutL5 zeroStats).currentHp = 11 ∧
    (evolveMonster demoDb sproutL5 zeroStats).stats.hp = 21 := by
  have h1 := (c8_evolveMonster_spec demoDb treeL5 zeroStats).1 treeSpecies rfl rfl
  have h2 := (c8_evolveMonster_spec demoDb sproutL5 zeroStats).2 sproutSpecies
    { level := some 7, evolvesTo := some "tree" } "tree" treeSpecies
    rfl rfl rfl (by decide) rfl (by decide) (by decide)
  obtain ⟨hid, hlvl, _, _, hexp, hnext, hstats, hhp⟩ := h2
  refine ⟨h1, hid.trans rfl, hlvl, hexp, hnext, ?_, ?_⟩
  · rw [hhp, hstats]
    norm_num [calculateStats, sproutL5, sproutSpecies, treeSpecies, zeroStats,
      Int.floor_eq_iff]
  · rw [hstats]
    decide

/-- A wild-battle fixture monster with derived speed 50. -/
def runnerMon : Monster :=
  { id := "sprout", name := "Runner", type := "grass", level := 5
    experience := 0, nextLevelExperience := 216
    baseStats := sproutSpecies.baseStats
    stats := ⟨30, 10, 10, 10, 10, 50⟩
    currentHp := 30
    ivs := zeroStats, evs := zeroStats
    abilities := ["tackle"], status := none, catchRate := 45 }

/-- A one-on-one wild battle between two speed-50 monsters. -/
def c9Wild : BattleState :=
  { active := true, turn := 0
    playerTeam := [runnerMon], enemyTeam := [runnerMon]
    activePlayerIdx := some 0, activeEnemyIdx := some 0
    battleType := "wild" }

/-- The same battle flagged as a trainer battle. -/
def c9Trainer : BattleState :=
  { c9Wild with battleType := "trainer" }

/-- C9: in a wild battle a run attempt increments the attempt counter on
every call, succeeds exactly when the uniform draw in [0,255]
(`⌊r·256⌋`) is strictly below
`⌊playerSpeed·128/enemySpeed + 30·attemptNumber⌋` (ending the battle on
success), and in a trainer battle the run action returns a
`success: false` result without touching the counter. -/
theorem c9_attemptRun_spec (st : BattleState) (r : ℚ) (rest : List ℚ)
    (pm em : Monster)
    (hpm : getActive st Side.player = some pm)
    (hem : getActive st Side.enemy = some em) :
    (st.battleType ≠ "wild" →
      attemptRun st (r :: rest) =
        some (st, { success := false, message := "Cannot run from a trainer battle!" },
          r :: rest)) ∧
    (st.battleType = "wild" →
      ∃ st1 res, attemptRun st (r :: rest) = some (st1, res, rest) ∧
        res.success = true ∧
        st1.runAttempts = st.runAttempts + 1 ∧
        (res.escaped = some true ↔
          ⌊r * 256⌋ < ⌊(pm.stats.speed : ℚ) * 128 / (em.stats.speed : ℚ)
            + 30 * ((st.runAttempts + 1 : ℕ) : ℚ)⌋) ∧
        (res.escaped = some false ↔
          ¬ ⌊r * 256⌋ < ⌊(pm.stats.speed : ℚ) * 128 / (em.stats.speed : ℚ)
            + 30 * ((st.runAttempts + 1 : ℕ) : ℚ)⌋) ∧
        (res.escaped = some true → st1.active = false ∧ res.battleEnded = true)) := by
  constructor
  · intro hty
    simp [attemptRun, hty]
  · intro hty
    have hcond : ¬(st.battleType ≠ "wild") := by simp [hty]
    simp only [attemptRun, hcond, if_false, hpm, hem, drawRand]
    split
    case isTrue h =>
      refine ⟨_, _, rfl, rfl, rfl, ?_, ?_, ?_⟩
      · simpa using h
      · simpa using h
      · intro _
        exact ⟨rfl, rfl⟩
    case isFalse h =>
      refine ⟨_, _, rfl, rfl, rfl, ?_, ?_, ?_⟩
      · simpa using h
      · simpa using h
      · intro hfalse
        simp at hfalse

/-- Closed witness for C9 at the claim's boundary example: speeds 50/50,
first attempt → escape chance 158; a draw of 157 escapes (ending the
battle), a draw of 158 does not, and both increment the counter; the same
action in a trainer battle fails. -/
theorem c9_attemptRun_spec_witness :
    (∃ st1 res, attemptRun c9Wild (157 / 256 :: []) = some (st1, res, []) ∧
      res.escaped = some true ∧ st1.runAttempts = 1 ∧ st1.active = false) ∧
    (∃ st1 res, attemptRun c9Wild (158 / 256 :: []) = some (st1, res, []) ∧
      res.escaped = some false ∧ st1.runAttempts = 1) ∧
    attemptRun c9Trainer (157 / 256 :: []) =
      some (c9Trainer, { success := false, message := "Cannot run from a trainer battle!" },
        157 / 256 :: []) := by
  have hchance : (⌊(157 / 256 : ℚ) * 256⌋ < ⌊((runnerMon.stats.speed : ℚ) * 128 /
      (runnerMon.stats.speed : ℚ) + 30 * ((c9Wild.runAttempts + 1 : ℕ) : ℚ))⌋) := by
    norm_num [runnerMon, c9Wild, Int.floor_eq_iff]
  have hchance2 : ¬(⌊(158 / 256 : ℚ) * 256⌋ < ⌊((runnerMon.stats.speed : ℚ) * 128 /
      (runnerMon.stats.speed : ℚ) + 30 * ((c9Wild.runAttempts + 1 : ℕ) : ℚ))⌋) := by
    norm_num [runnerMon, c9Wild, Int.floor_eq_iff]
  refine ⟨?_, ?_, ?_⟩
  · obtain ⟨st1, res, heq, hsucc, hinc, hiff, _, himp⟩ :=
      (c9_attemptRun_spec c9Wild (157 / 256) [] runnerMon runnerMon rfl rfl).2 rfl
    exact ⟨st1, res, heq, hiff.mpr hchance, hinc, (himp (hiff.mpr hchance)).1⟩
  · obtain ⟨st1, res, heq, hsucc, hinc, _, hiff2, _⟩ :=
      (c9_attemptRun_spec c9Wild (158 / 256) [] runnerMon runnerMon rfl rfl).2 rfl
    exact ⟨st1, res, heq, hiff2.mpr hchance2, hinc⟩
  · exact (c9_attemptRun_spec c9Trainer (157 / 256) [] runnerMon runnerMon rfl rfl).1
      (by decide)

/-! ## Support lemmas for symbolic runs of `executeAbility` -/

/-- Both sides have a resolvable active monster. -/
def activesPresent (st : BattleState) : Prop :=
  (getActive st Side.player).isSome = true ∧ (getActive st Side.enemy).isSome = true

/-- A successful `getActive` yields the index and the team entry. -/
theorem getActive_eq_some (st : BattleState) (s : Side) (m : Monster)
    (h : getActive st s = some m) :
    ∃ i, st.activeIdx s = some i ∧ (st.team s).get? i = some m := by
  revert h
  simp only [getActive]
  cases hidx : st.activeIdx s with
  | none => simp
  | some i =>
    intro h
    exact ⟨i, rfl, h⟩

/-- `setTeamAt` does not change either side's active index. -/
theorem setTeamAt_activeIdx (st : BattleState) (s : Side) (i : ℕ) (m : Monster) (s' : Side) :
    (setTeamAt st s i m).activeIdx s' = st.activeIdx s' := by
  cases s <;> cases s' <;> rfl

/-- `setTeamAt` does not change either side's team length. -/
theorem setTeamAt_team_length (st : BattleState) (s : Side) (i : ℕ) (m : Monster) (s' : Side) :
    ((setTeamAt st s i m).team s').length = (st.team s').length := by
  cases s <;> cases s' <;> simp [setTeamAt, BattleState.team]

/-- An active monster resolves exactly when the index is set and in
bounds. -/
theorem getActive_isSome_iff (st : BattleState) (s : Side) :
    (getActive st s).isSome = true ↔
      ∃ i, st.activeIdx s = some i ∧ i < (st.team s).length := by
  simp only [getActive]
  cases hidx : st.activeIdx s with
  | none => simp
  | some i =>
    have hiff : ((st.team s).get? i).isSome = true ↔ i < (st.team s).length := by
      rw [List.get?_eq_getElem?, Option.isSome_iff_ne_none, ne_eq, List.getElem?_eq_none_iff]
      omega
    constructor
    · intro hs
      exact ⟨i, rfl, hiff.mp hs⟩
    · rintro ⟨j, hj, hlt⟩
      obtain rfl : i = j := by injection hj
      exact hiff.mpr hlt

/-- Writing a monster back into a team slot keeps both actives
resolvable. -/
theorem activesPresent_setTeamAt (st : BattleState) (s : Side) (i : ℕ) (m : Monster)
    (h : activesPresent st) : activesPresent (setTeamAt st s i m) := by
  rcases h with ⟨hp, he⟩
  rw [getActive_isSome_iff] at hp he
  constructor
  · rw [getActive_isSome_iff, setTeamAt_activeIdx]
    obtain ⟨j, hj, hlt⟩ := hp
    exact ⟨j, hj, by rw [setTeamAt_team_length]; exact hlt⟩
  · rw [getActive_isSome_iff, setTeamAt_activeIdx]
    obtain ⟨j, hj, hlt⟩ := he
    exact ⟨j, hj, by rw [setTeamAt_team_length]; exact hlt⟩

/-- When both actives resolve, the effect loop always completes (the
source dereferences would all succeed) and leaves both actives
resolvable. -/
theorem processEffects_some (db : GameDb) (userSide : Side) (effects : List AbilityEffect) :
    ∀ (st : BattleState) (rnd : List ℚ) (acc : List EffectResult), activesPresent st →
      ∃ st2 res rnd2, processEffects db userSide effects st rnd acc = some (st2, res, rnd2) ∧
        activesPresent st2 := by
  induction effects with
  | nil =>
    intro st rnd acc h
    exact ⟨st, acc, rnd, rfl, h⟩
  | cons e rest ih =>
    intro st rnd acc h
    simp only [processEffects]
    split
    case isTrue hch =>
      have hside : (getActive st (effectTargetSide userSide e)).isSome = true := by
        rcases h with ⟨hp, he⟩
        cases hs : effectTargetSide userSide e
        · exact hp
        · exact he
      obtain ⟨tm, htm⟩ := Option.isSome_iff_exists.mp hside
      obtain ⟨i, hidx, _⟩ := getActive_eq_some st _ tm htm
      simp only [hidx, htm]
      by_cases hstat : e.type = "stat"
      · rw [if_pos hstat]
        exact ih st _ _ h
      · rw [if_neg hstat]
        by_cases hsta : e.type = "status"
        · rw [if_pos hsta]
          exact ih _ _ _ (activesPresent_setTeamAt st _ i _ h)
        · rw [if_neg hsta]
          by_cases hheal : e.type = "healing"
          · rw [if_pos hheal]
            exact ih _ _ _ (activesPresent_setTeamAt st _ i _ h)
          · rw [if_neg hheal]
            exact ih st _ _ h
    case isFalse hch =>
      exact ih st _ _ h

/-- When both actives resolve, the faint bookkeeping always completes. -/
theorem resolveFaint_some (db : GameDb) (st : BattleState) (userSide : Side)
    (target : Monster) (dres : Option DamageResult) (h : activesPresent st) :
    ∃ out, resolveFaint db st userSide target dres = some out := by
  rcases dres with _ | d
  · exact ⟨_, rfl⟩
  · simp only [resolveFaint]
    split
    case isTrue hf =>
      cases userSide with
      | player =>
        simp only [Side.other]
        cases hnx : getNextMonsterIdx st Side.enemy with
        | some j => exact ⟨_, rfl⟩
        | none =>
          obtain ⟨u, hu⟩ := Option.isSome_iff_exists.mp h.1
          obtain ⟨ui, hui, _⟩ := getActive_eq_some st _ u hu
          rw [hui, hu]
          exact ⟨_, rfl⟩
      | enemy =>
        simp only [Side.other]
        cases hnx : getNextMonsterIdx st Side.player with
        | some j => exact ⟨_, rfl⟩
        | none => exact ⟨_, rfl⟩
    case isFalse hf => exact ⟨_, rfl⟩

/-- The two hypotheses of an ability use imply `activesPresent`. -/
theorem activesPresent_of_sides (st : BattleState) (userSide : Side) (u t : Monster)
    (hu : getActive st userSide = some u) (ht : getActive st userSide.other = some t) :
    activesPresent st := by
  cases userSide
  · exact ⟨by simp [hu], by simpa [Side.other] using congrArg Option.isSome ht⟩
  · exact ⟨by simpa [Side.other] using congrArg Option.isSome ht, by simp [hu]⟩

/-- C2: for a physical- or special-category ability use that hits (with
the user knowing the ability and both actives present), the damage
reported — and applied to the target via `applyDamage` — equals
`⌊((2·L/5 + 2) · P · atk/def / 50 + 2) · stab · typeEff · r⌋` with
`atk`/`def` chosen by category, `stab = 3/2` iff the ability type equals
the user's type, `typeEff` from the type-effectiveness lookup, and
`r = 0.85 + draw·0.15 ∈ [0.85, 1)`; a non-physical, non-special
(status) category deals damage 0 with neutral effectiveness. -/
theorem c2_damage_formula (db : GameDb) (st : BattleState) (userSide : Side)
    (aid : String) (ability : AbilityData) (user target : Monster) (ti : ℕ)
    (P te r1 r2 : ℚ) (rest : List ℚ)
    (hab : dbFind db.abilities aid = some ability)
    (huser : getActive st userSide = some user)
    (hti : st.activeIdx userSide.other = some ti)
    (htarget : getActive st userSide.other = some target)
    (hknow : user.abilities.contains aid = true)
    (hhit : r1 * 100 ≤ ability.accuracy)
    (hpow : ability.power = some P)
    (hte : calculateTypeEffectiveness ability.type target.type = some te) :
    ∃ st2 res rnd2,
      executeAbility db st userSide (some aid) (r1 :: r2 :: rest) = some (st2, res, rnd2) ∧
      res.success = true ∧
      res.hit = some true ∧
      res.damage = some
        (if ability.category = "physical" ∨ ability.category = "special" then
          ⌊((2 * (user.level : ℚ) / 5 + 2) * P *
              (if ability.category = "physical" then (user.stats.attack : ℚ)
                else (user.stats.specialAttack : ℚ)) /
              (if ability.category = "physical" then (target.stats.defense : ℚ)
                else (target.stats.specialDefense : ℚ)) / 50 + 2) *
            (if ability.type = user.type then (3 / 2 : ℚ) else 1) * te *
            (0.85 + r2 * 0.15)⌋
        else 0) ∧
      res.typeEffectiveness = some
        (if ability.category = "physical" ∨ ability.category = "special" then te else 1) ∧
      res.damageResult =
        (if ability.category = "physical" ∨ ability.category = "special" then
          (if 0 <
              ⌊((2 * (user.level : ℚ) / 5 + 2) * P *
                  (if ability.category = "physical" then (user.stats.attack : ℚ)
                    else (user.stats.specialAttack : ℚ)) /
                  (if ability.category = "physical" then (target.stats.defense : ℚ)
                    else (target.stats.specialDefense : ℚ)) / 50 + 2) *
                (if ability.type = user.type then (3 / 2 : ℚ) else 1) * te *
                (0.85 + r2 * 0.15)⌋ then
            some (applyDamage target
              (⌊((2 * (user.level : ℚ) / 5 + 2) * P *
                  (if ability.category = "physical" then (user.stats.attack : ℚ)
                    else (user.stats.specialAttack : ℚ)) /
                  (if ability.category = "physical" then (target.stats.defense : ℚ)
                    else (target.stats.specialDefense : ℚ)) / 50 + 2) *
                (if ability.type = user.type then (3 / 2 : ℚ) else 1) * te *
                (0.85 + r2 * 0.15)⌋).toNat).2
          else none)
        else none) := by
  have hap : activesPresent st := activesPresent_of_sides st userSide user target huser htarget
  have hnotmiss : ¬ ¬ (r1 * 100 ≤ ability.accuracy) := not_not_intro hhit
  simp only [executeAbility, Option.some_bind, hab, huser, Option.elim, hknow,
    Bool.true_eq_false, if_false, drawRand, hnotmiss, hti, htarget]
  by_cases hcat : ability.category = "physical" ∨ ability.category = "special"
  · rw [if_pos hcat]
    have hcd : computeDamage user target ability r2 =
        some (⌊((2 * (user.level : ℚ) / 5 + 2) * P *
            (if ability.category = "physical" then (user.stats.attack : ℚ)
              else (user.stats.specialAttack : ℚ)) /
            (if ability.category = "physical" then (target.stats.defense : ℚ)
              else (target.stats.specialDefense : ℚ)) / 50 + 2) *
          (if ability.type = user.type then (3 / 2 : ℚ) else 1) * te *
          (0.85 + r2 * 0.15)⌋, te) := by
      simp only [computeDamage, hte, hpow, Option.getD_some]
    rw [hcd]
    dsimp only
    set d := ⌊((2 * (user.level : ℚ) / 5 + 2) * P *
        (if ability.category = "physical" then (user.stats.attack : ℚ)
          else (user.stats.specialAttack : ℚ)) /
        (if ability.category = "physical" then (target.stats.defense : ℚ)
          else (target.stats.specialDefense : ℚ)) / 50 + 2) *
      (if ability.type = user.type then (3 / 2 : ℚ) else 1) * te *
      (0.85 + r2 * 0.15)⌋ with hd
    by_cases hpos : 0 < d
    · rw [if_pos hpos]
      dsimp only
      have hap1 : activesPresent (setTeamAt st userSide.other ti (applyDamage target d.toNat).1) :=
        activesPresent_setTeamAt st userSide.other ti _ hap
      obtain ⟨stE, effR, rndE, hpe, hapE⟩ :=
        processEffects_some db userSide ability.effects
          (setTeamAt st userSide.other ti (applyDamage target d.toNat).1) rest [] hap1
      rw [hpe]
      dsimp only
      obtain ⟨out, hrf⟩ :=
        resolveFaint_some db stE userSide target (some (applyDamage target d.toNat).2) hapE
      rcases out with ⟨st3, ended, outc⟩
      rw [hrf]
      dsimp only
      refine ⟨st3, _, rndE, rfl, rfl, rfl, ?_, ?_, ?_⟩
      · simp [if_pos hcat]
      · simp [if_pos hcat]
      · simp [if_pos hcat, if_pos hpos]
    · rw [if_neg hpos]
      dsimp only
      obtain ⟨stE, effR, rndE, hpe, hapE⟩ :=
        processEffects_some db userSide ability.effects st rest [] hap
      rw [hpe]
      dsimp only
      obtain ⟨out, hrf⟩ := resolveFaint_some db stE userSide target none hapE
      rcases out with ⟨st3, ended, outc⟩
      rw [hrf]
      dsimp only
      refine ⟨st3, _, rndE, rfl, rfl, rfl, ?_, ?_, ?_⟩
      · simp [if_pos hcat]
      · simp [if_pos hcat]
      · simp [if_pos hcat, if_neg hpos]
  · rw [if_neg hcat]
    dsimp only
    have hpos : ¬ (0 : ℤ) < 0 := by omega
    rw [if_neg hpos]
    dsimp only
    obtain ⟨stE, effR, rndE, hpe, hapE⟩ :=
      processEffects_some db userSide ability.effects st (r2 :: rest) [] hap
    rw [hpe]
    dsimp only
    obtain ⟨out, hrf⟩ := resolveFaint_some db stE userSide target none hapE
    rcases out with ⟨st3, ended, outc⟩
    rw [hrf]
    dsimp only
    refine ⟨st3, _, rndE, rfl, rfl, rfl, ?_, ?_, ?_⟩
    · simp [if_neg hcat]
    · simp [if_neg hcat]
    · simp [if_neg hcat]

/-- A plain physical 10-power, 100-accuracy ability with no secondary
effects. -/
def tackleAbility : AbilityData :=
  { id := "tackle", name := "Tackle", type := "normal", category := "physical"
    power := some 10, accuracy := 100, effects := [] }

/-- A normal-type attacker one hit from fainting (1/20 HP). -/
def weakMon : Monster :=
  { id := "weak", name := "Weak", type := "normal", level := 5
    experience := 0, nextLevelExperience := 216
    baseStats := ⟨10, 10, 10, 10, 10, 10⟩
    stats := ⟨20, 10, 10, 10, 10, 10⟩
    currentHp := 1
    ivs := zeroStats, evs := zeroStats
    abilities := ["tackle"], status := none, catchRate := 45 }

/-- A poisoned normal-type defender at full 50 HP. -/
def toughMon : Monster :=
  { id := "tough", name := "Tough", type := "normal", level := 5
    experience := 0, nextLevelExperience := 216
    baseStats := ⟨25, 10, 10, 10, 10, 10⟩
    stats := ⟨50, 10, 10, 10, 10, 10⟩
    currentHp := 50
    ivs := zeroStats, evs := zeroStats
    abilities := ["tackle"], status := some "poison", catchRate := 45 }

/-- Data set for the battle scenarios: just the tackle ability. -/
def c3Db : GameDb :=
  { abilities := [("tackle", tackleAbility)] }

/-- A wild one-on-one battle: the weak monster against the poisoned
tough one. -/
def c3State : BattleState :=
  { active := true, turn := 0
    playerTeam := [weakMon], enemyTeam := [toughMon]
    activePlayerIdx := some 0, activeEnemyIdx := some 0
    battleType := "wild" }

/-- Closed witness for C2: the level-5 attacker (attack 10) hitting the
defense-10 target with 10-power physical STAB tackle at the minimal
random factor deals `⌊((2·5/5+2)·10·10/10/50+2)·1.5·1·0.85⌋ = ⌊3.57⌋ = 3`
damage. -/
theorem c2_damage_formula_witness :
    ∃ st2 res rnd2,
      executeAbility c3Db c3State Side.player (some "tackle") [0, 0] = some (st2, res, rnd2) ∧
      res.damage = some 3 := by
  obtain ⟨st2, res, rnd2, heq, hsucc, hhit, hdmg, hte, hdr⟩ :=
    c2_damage_formula c3Db c3State Side.player "tackle" tackleAbility weakMon toughMon 0
      10 1 0 0 [] rfl rfl rfl rfl rfl (by norm_num [tackleAbility]) rfl rfl
  refine ⟨st2, res, rnd2, heq, ?_⟩
  rw [hdmg]
  norm_num +decide [tackleAbility, weakMon, toughMon, Int.floor_eq_iff]

/-- The player action used in the C3 scenario. -/
def c3Action : PlayerAction :=
  { type := "ability", abilityId := some "tackle" }

/-- Five zero draws: player accuracy, player damage factor, enemy AI
choice, enemy accuracy, enemy damage factor. -/
def c3Draws : List ℚ := [0, 0, 0, 0, 0]

/-- C3 at a concrete battle: the player's tackle succeeds without ending
the battle (enemy 50 → 47 HP), the automatically resolved enemy tackle
faints the player's last monster and ends the battle (winner enemy,
`active = false`), yet `_startNewTurn` still runs — the turn counter
advances from 0 to 1 and the poisoned enemy takes its start-of-turn
poison tick (47 → 41 HP) after the battle has reached a terminal state,
because line 284 re-checks the player's `result.battleEnded` instead of
the enemy action's. -/
theorem c3_turn_advances_after_enemy_ended_battle :
    ((executePlayerAction c3Db c3State c3Action c3Draws).map fun out =>
      (out.1.active, out.1.turn,
        (out.1.enemyTeam.get? 0).map Monster.currentHp,
        (out.1.playerTeam.get? 0).map Monster.currentHp,
        out.2.1.result.battleEnded,
        out.2.1.enemyAction.map ActionResult.battleEnded)) =
      some (false, 1, some 41, some 0, false, some true) := by
  norm_num +decide [executePlayerAction, executeAbility, executeEnemyAction, computeDamage,
    calculateTypeEffectiveness, chartCell, dbFind, typeChart, getActive, BattleState.team,
    BattleState.activeIdx, setTeamAt, getNextMonsterIdx, drawRand, processEffects, resolveFaint,
    applyDamage, startNewTurn, applyStatusEffects, tickStatus, applyWeatherEffects, endBattle,
    Side.other, c3Db, c3State, c3Action, c3Draws, tackleAbility, weakMon, toughMon,
    List.range_succ, Int.floor_eq_iff]

end Pockethero
